import Mathlib

/-!
  # Verification of the buffer-queue client (Surface) and compositor commit

  Shallow embedding of the producer-side buffer-queue client
  (frameworks/native/libs/gui/Surface.cpp) and of the compositor
  transaction-commit discipline declared in
  frameworks/native/services/surfaceflinger/SurfaceFlinger.h.

  External collaborators (the IGraphicBufferProducer transport, the gralloc
  mapper, fences, the Region and Rect utility classes from libui) are not
  part of this repository; their calls are modelled as oracle inputs, and
  Region is modelled by its documented semantics as a set of pixels
  (a Finset of integer coordinates).  Machine integers are modelled as Int
  (status codes, dimensions; no arithmetic here overflows) and the uint32
  fields filled in from QueueBufferOutput::deflate as Nat.
-/

namespace AndroidGui

/-! ## Status codes (system/core/include/utils/Errors.h) -/

/-- OK = 0. -/
def OK : Int := 0

/-- NO_ERROR = 0, alias of OK. -/
def NO_ERROR : Int := 0

/-- BAD_VALUE = -EINVAL = -22. -/
def BAD_VALUE : Int := -22

/-- INVALID_OPERATION = -ENOSYS = -38. -/
def INVALID_OPERATION : Int := -38

/-! ## window.h constants -/

/-- NATIVE_WINDOW_API_CPU = 2. -/
def NATIVE_WINDOW_API_CPU : Int := 2

/-- NATIVE_WINDOW_SCALING_MODE_FREEZE = 0. -/
def NATIVE_WINDOW_SCALING_MODE_FREEZE : Int := 0

/-- NATIVE_WINDOW_TIMESTAMP_AUTO = INT64_MIN. -/
def NATIVE_WINDOW_TIMESTAMP_AUTO : Int := -9223372036854775808

/-- GRALLOC_USAGE_SW_READ_OFTEN = 0x3 combined with
GRALLOC_USAGE_SW_WRITE_OFTEN = 0x30, the usage lock() installs. -/
def GRALLOC_USAGE_SW_RW_OFTEN : Int := 51

/-- IGraphicBufferProducer::BUFFER_NEEDS_REALLOCATION = 0x1. -/
def BUFFER_NEEDS_REALLOCATION : Nat := 1

/-- IGraphicBufferProducer::RELEASE_ALL_BUFFERS = 0x2. -/
def RELEASE_ALL_BUFFERS : Nat := 2

/-- BufferQueue::NUM_BUFFER_SLOTS (gui/BufferQueue.h, external header). -/
def NUM_BUFFER_SLOTS : Nat := 32

/-! ## Rect (ui/Rect.h, external): left/top inclusive, right/bottom
exclusive -/

/-- A rectangle in pixel coordinates, right and bottom exclusive. -/
structure Rect where
  left : Int
  top : Int
  right : Int
  bottom : Int
deriving DecidableEq, Repr

/-- Rect::intersect writes the component-wise max/min into its result
argument (ui/Rect.cpp). -/
def Rect.intersect (a b : Rect) : Rect :=
  ⟨max a.left b.left, max a.top b.top, min a.right b.right, min a.bottom b.bottom⟩

/-! ## Region, modelled by its pixel-set semantics -/

/-- A Region is semantically the set of pixels it covers. -/
abbrev Region := Finset (Int × Int)

/-- The pixel set of a rectangle. -/
def Rect.toRegion (r : Rect) : Region :=
  Finset.Icc r.left (r.right - 1) ×ˢ Finset.Icc r.top (r.bottom - 1)

/-- Region::getBounds, the bounding rectangle of a region (empty region
gives the zero rect, as in libui). -/
def Region.getBounds (r : Region) : Rect :=
  if h : Finset.Nonempty r then
    ⟨Finset.inf' r h Prod.fst, Finset.inf' r h Prod.snd,
     Finset.sup' r h Prod.fst + 1, Finset.sup' r h Prod.snd + 1⟩
  else ⟨0, 0, 0, 0⟩

/-! ## GraphicBuffer and pixel memory

A GraphicBuffer is an immutable-dimension handle to a block of pixel
memory; `handle` is the cross-process buffer identity
(buffer_handle_t). The memory itself is shared between processes, so it
lives outside the buffer object, as a map from handle to pixel
contents. -/

/-- Handle to a block of pixel memory (ui/GraphicBuffer.h, external). -/
structure GraphicBuffer where
  width : Int
  height : Int
  stride : Int
  format : Int
  usage : Int
  handle : Nat
deriving DecidableEq, Repr

/-- Shared pixel memory: contents of each buffer handle. -/
def Mem := Nat → (Int × Int) → Nat

/-- The full pixel bounds of a buffer, Rect(width, height) in the source. -/
def boundsRect (b : GraphicBuffer) : Rect := ⟨0, 0, b.width, b.height⟩

/-- The pixel set of the full bounds of a buffer. -/
def boundsRegion (b : GraphicBuffer) : Region := (boundsRect b).toRegion

/-- copyBlt(dst, src, reg) (Surface.cpp): copy the pixels of `reg` from
the src buffer into the dst buffer; all other memory is untouched.  The
source routine performs this with per-rect row memcpy under the
precondition (stated in its comment) that src and dst width, height and
format are identical. -/
def copyBlt (dst src : GraphicBuffer) (reg : Region) (mem : Mem) : Mem :=
  fun h p =>
    if h = dst.handle then
      if p ∈ reg then mem src.handle p else mem h p
    else mem h p

/-! ## Surface client state (gui/Surface.h fields, initialised in the
constructor, Surface.cpp lines 60-77) -/

/-- One entry of the Surface-side slot table: the cached buffer for the
slot and its dirty-region history. -/
structure BufferSlot where
  buffer : Option GraphicBuffer
  dirtyRegion : Region
deriving DecidableEq

/-- The mutable client state of a Surface. -/
structure SurfaceState where
  reqWidth : Int
  reqHeight : Int
  reqFormat : Int
  reqUsage : Int
  timestamp : Int
  crop : Rect
  scalingMode : Int
  transform : Int
  defaultWidth : Nat
  defaultHeight : Nat
  userWidth : Int
  userHeight : Int
  transformHint : Nat
  consumerRunningBehind : Bool
  connectedToCpu : Bool
  producerControlledByApp : Bool
  swapIntervalZero : Bool
  slots : Fin NUM_BUFFER_SLOTS → BufferSlot
  dirtyRegion : Region
  lockedBuffer : Option GraphicBuffer
  postedBuffer : Option GraphicBuffer

/-- The state established by the Surface constructor. -/
def initialSurface : SurfaceState where
  reqWidth := 0
  reqHeight := 0
  reqFormat := 0
  reqUsage := 0
  timestamp := NATIVE_WINDOW_TIMESTAMP_AUTO
  crop := ⟨0, 0, 0, 0⟩
  scalingMode := NATIVE_WINDOW_SCALING_MODE_FREEZE
  transform := 0
  defaultWidth := 0
  defaultHeight := 0
  userWidth := 0
  userHeight := 0
  transformHint := 0
  consumerRunningBehind := false
  connectedToCpu := false
  producerControlledByApp := false
  swapIntervalZero := false
  slots := fun _ => ⟨none, ∅⟩
  dirtyRegion := ∅
  lockedBuffer := none
  postedBuffer := none

/-- getSlotFromBufferLocked: first slot whose cached buffer has the same
native handle (Surface.cpp lines 241-252); none stands for the BAD_VALUE
return. -/
def findSlot (s : SurfaceState) (b : GraphicBuffer) : Option (Fin NUM_BUFFER_SLOTS) :=
  (List.finRange NUM_BUFFER_SLOTS).find? fun i =>
    match (s.slots i).buffer with
    | some g => g.handle == b.handle
    | none => false

/-- freeAllBuffers on the slot table: drop every cached buffer, keeping
the dirty-region histories (Surface.cpp lines 658-662). -/
def freeAllSlots (sl : Fin NUM_BUFFER_SLOTS → BufferSlot) :
    Fin NUM_BUFFER_SLOTS → BufferSlot :=
  fun i => ⟨none, (sl i).dirtyRegion⟩

/-- Surface::freeAllBuffers. -/
def freeAllBuffers (s : SurfaceState) : SurfaceState :=
  { s with slots := freeAllSlots s.slots }

/-! ## Oracle inputs for the external producer -/

/-- What IGraphicBufferProducer::dequeueBuffer reported back: a status or
flag word (flags BUFFER_NEEDS_REALLOCATION / RELEASE_ALL_BUFFERS when
nonnegative) and the slot index.  The fence is handled by the caller
through a separate wait oracle. -/
structure DequeueResponse where
  result : Int
  slot : Fin NUM_BUFFER_SLOTS

/-- What IGraphicBufferProducer::requestBuffer reported back. -/
structure RequestBufferResponse where
  result : Int
  buffer : GraphicBuffer

/-- The fields IGraphicBufferProducer::QueueBufferOutput::deflate hands
back (uint32 in the source). -/
structure QueueBufferOutput where
  width : Nat
  height : Nat
  transformHint : Nat
  numPendingBuffers : Nat

/-- A nonnegative dequeue result carries flag bits. -/
def hasFlag (result : Int) (flag : Nat) : Bool :=
  (result.toNat &&& flag) != 0

/-! ## Surface operations -/

/-- Surface::dequeueBuffer acting on the slot table (lines 178-225): on
producer failure return the error; on RELEASE_ALL_BUFFERS drop all cached
buffers; on BUFFER_NEEDS_REALLOCATION or an empty slot fetch the buffer
via requestBuffer and cache it; otherwise hand out the cached buffer. -/
def dequeueFill (sl1 : Fin NUM_BUFFER_SLOTS → BufferSlot)
    (resp : DequeueResponse) (req : RequestBufferResponse) :
    Int × Option GraphicBuffer × (Fin NUM_BUFFER_SLOTS → BufferSlot) :=
  if hasFlag resp.result BUFFER_NEEDS_REALLOCATION ∨ (sl1 resp.slot).buffer.isNone then
    if req.result ≠ NO_ERROR then (req.result, none, sl1)
    else (OK, some req.buffer,
      Function.update sl1 resp.slot ⟨some req.buffer, (sl1 resp.slot).dirtyRegion⟩)
  else (OK, (sl1 resp.slot).buffer, sl1)

def dequeueCore (sl : Fin NUM_BUFFER_SLOTS → BufferSlot)
    (resp : DequeueResponse) (req : RequestBufferResponse) :
    Int × Option GraphicBuffer × (Fin NUM_BUFFER_SLOTS → BufferSlot) :=
  if resp.result < 0 then (resp.result, none, sl)
  else dequeueFill
    (if hasFlag resp.result RELEASE_ALL_BUFFERS then freeAllSlots sl else sl) resp req

/-- Surface::dequeueBuffer: only the slot table is touched. -/
def Surface.dequeueBuffer (s : SurfaceState) (resp : DequeueResponse)
    (req : RequestBufferResponse) : Int × Option GraphicBuffer × SurfaceState :=
  let r := dequeueCore s.slots resp req
  (r.1, r.2.1, { s with slots := r.2.2 })

/-- Surface::cancelBuffer (lines 227-239): look the buffer up, forward the
cancellation to the producer (external); client state is unchanged. -/
def Surface.cancelBuffer (s : SurfaceState) (b : GraphicBuffer) : Int × SurfaceState :=
  match findSlot s b with
  | none => (BAD_VALUE, s)
  | some _ => (OK, s)

/-- Surface::setUsage (lines 531-537). -/
def Surface.setUsage (s : SurfaceState) (u : Int) : Int × SurfaceState :=
  (OK, { s with reqUsage := u })

/-- Surface::setBuffersDimensions (lines 575-590): negative or
partially-specified dimensions are rejected with BAD_VALUE and nothing is
stored; otherwise the requested dimensions are recorded. -/
def Surface.setBuffersDimensions (w h : Int) (s : SurfaceState) : Int × SurfaceState :=
  if w < 0 ∨ h < 0 then (BAD_VALUE, s)
  else if (w ≠ 0 ∧ h = 0) ∨ (w = 0 ∧ h ≠ 0) then (BAD_VALUE, s)
  else (NO_ERROR, { s with reqWidth := w, reqHeight := h })

/-- Surface::connect (lines 490-507): on producer success deflate the
output into the default geometry, transform hint and the
consumer-running-behind flag; additionally record a CPU connection. -/
def Surface.connect (s : SurfaceState) (api : Int) (err : Int)
    (output : QueueBufferOutput) : Int × SurfaceState :=
  if err = NO_ERROR then
    let s1 := { s with
      defaultWidth := output.width
      defaultHeight := output.height
      transformHint := output.transformHint
      consumerRunningBehind := decide (2 ≤ output.numPendingBuffers) }
    if api = NATIVE_WINDOW_API_CPU then (err, { s1 with connectedToCpu := true })
    else (err, s1)
  else (err, s)

/-- Surface::disconnect (lines 510-529): always free all cached buffers;
when the producer disconnect succeeds, reset the requested geometry, crop,
scaling mode and transform to their defaults, and drop the CPU-connected
mark for the CPU api. -/
def Surface.disconnect (s : SurfaceState) (api : Int) (err : Int) : Int × SurfaceState :=
  let s1 := freeAllBuffers s
  if err = 0 then
    let s2 := { s1 with
      reqFormat := 0
      reqWidth := 0
      reqHeight := 0
      reqUsage := 0
      crop := ⟨0, 0, 0, 0⟩
      scalingMode := NATIVE_WINDOW_SCALING_MODE_FREEZE
      transform := 0 }
    if api = NATIVE_WINDOW_API_CPU then (err, { s2 with connectedToCpu := false })
    else (err, s2)
  else (err, s1)

/-- The payload Surface::queueBuffer submits to the producer
(IGraphicBufferProducer::QueueBufferInput). -/
structure QueueBufferInput where
  timestamp : Int
  isAutoTimestamp : Bool
  crop : Rect
  scalingMode : Int
  transform : Int
  async : Bool
deriving DecidableEq

/-- Surface::queueBuffer (lines 260-299): pick the presentation timestamp
(wall clock `now` when the policy is auto), look up the slot of the
buffer, clip the crop to the buffer bounds, submit to the producer
(its status and output are oracle inputs), then deflate the output and
refresh the consumer-running-behind flag.  The middle component reports
the submitted QueueBufferInput (none when the slot lookup failed and
nothing was submitted). -/
def Surface.queueBuffer (s : SurfaceState) (b : GraphicBuffer) (now : Int)
    (producerErr : Int) (output : QueueBufferOutput) :
    Int × Option QueueBufferInput × SurfaceState :=
  let timestamp := if s.timestamp = NATIVE_WINDOW_TIMESTAMP_AUTO then now else s.timestamp
  let isAutoTimestamp := s.timestamp == NATIVE_WINDOW_TIMESTAMP_AUTO
  match findSlot s b with
  | none => (BAD_VALUE, none, s)
  | some _ =>
    let crop := Rect.intersect s.crop (boundsRect b)
    let input : QueueBufferInput :=
      ⟨timestamp, isAutoTimestamp, crop, s.scalingMode, s.transform, s.swapIntervalZero⟩
    (producerErr, some input,
      { s with
        defaultWidth := output.width
        defaultHeight := output.height
        transformHint := output.transformHint
        consumerRunningBehind := decide (2 ≤ output.numPendingBuffers) })

/-- Surface::unlockAndPost (lines 893-910): with no locked buffer, fail
with INVALID_OPERATION.  Otherwise unlock the buffer (the unlock status is
logged and then overwritten), queue it with an auto timestamp and no
external fence, record it as the posted buffer, clear the locked buffer,
and return the queueBuffer status. -/
def Surface.unlockAndPost (s : SurfaceState) (now : Int)
    (producerErr : Int) (output : QueueBufferOutput) : Int × SurfaceState :=
  match s.lockedBuffer with
  | none => (INVALID_OPERATION, s)
  | some b =>
    let r := Surface.queueBuffer s b now producerErr output
    (r.1, { r.2.2 with postedBuffer := some b, lockedBuffer := none })

/-! ## Surface::lock (lines 770-871)

The external calls made along the way (the auto-connect to the producer,
the producer dequeue/requestBuffer, the fence wait, and the gralloc
mapping of the back buffer) are oracle inputs gathered in `LockEnv`. -/

/-- Oracle inputs consumed by one lock() call. -/
structure LockEnv where
  connectErr : Int
  connectOutput : QueueBufferOutput
  dequeue : DequeueResponse
  request : RequestBufferResponse
  fenceWaitResult : Int
  grallocLockResult : Int

/-- What the caller of lock() can observe: the status, the client state,
the shared pixel memory, the filled-in ANativeWindow_Buffer (when the call
succeeded), the final value of the in-out dirty bounds argument, and a
record of the internal actions (the dirty region computed for this frame,
the region handed to copyBlt if any, whether the dequeued buffer was
canceled, and the slot the bookkeeping targeted). -/
structure LockResult where
  status : Int
  state : SurfaceState
  mem : Mem
  outWidth : Option Int
  outDirtyBounds : Option Rect
  newDirtyRegion : Option Region
  copyback : Option Region
  canceled : Bool
  backSlot : Option (Fin NUM_BUFFER_SLOTS)

/-- The copy-back-ineligible arm of lock() (lines 824-833): force a full
redraw by clearing the accumulated dirty region and every per-slot dirty
history. -/
def clearAllDirty (s : SurfaceState) : SurfaceState :=
  { s with
    dirtyRegion := ∅
    slots := fun i => ⟨(s.slots i).buffer, ∅⟩ }

/-- The dirty region of this frame (lines 804-810): the caller-supplied
rectangle clipped to the buffer bounds, or the full bounds when none is
given. -/
def lockNewDirtyRegion (d : Option Rect) (bounds : Rect) : Region :=
  match d with
  | some r => r.toRegion ∩ bounds.toRegion
  | none => bounds.toRegion

/-- The per-slot bookkeeping step of the lock() tail (lines 838-843):
when the back buffer is found in the slot table, overwrite that slot's
dirty history with the new dirty region.  The statement
mDirtyRegion.subtract(dirtyRegion) on line 841 calls the const
Region::subtract, whose result is discarded, so it leaves no trace in the
state. -/
def applyDirtyBookkeeping (s : SurfaceState) (newDirtyRegion : Region)
    (backBuffer : GraphicBuffer) : SurfaceState :=
  match findSlot s backBuffer with
  | some i => { s with slots := Function.update s.slots i ⟨(s.slots i).buffer, newDirtyRegion⟩ }
  | none => s

/-- The tail of lock() after the copy-back decision (lines 836-869):
run the per-slot bookkeeping, OR the new dirty region into the accumulated
dirty region, report its bounds through the in-out argument, then map the
buffer; a mapping failure turns into INVALID_OPERATION, success records
the locked buffer and fills the out parameters. -/
def lockFinish (s : SurfaceState) (mem : Mem) (env : LockEnv)
    (newDirtyRegion : Region) (backBuffer : GraphicBuffer) (d : Option Rect)
    (cb : Option Region) : LockResult :=
  let backSlot := findSlot s backBuffer
  let s1 := applyDirtyBookkeeping s newDirtyRegion backBuffer
  let s2 := { s1 with dirtyRegion := s1.dirtyRegion ∪ newDirtyRegion }
  let outBounds := d.map fun _ => Region.getBounds newDirtyRegion
  if env.grallocLockResult ≠ 0 then
    ⟨INVALID_OPERATION, s2, mem, none, outBounds, some newDirtyRegion, cb, false, backSlot⟩
  else
    ⟨OK, { s2 with lockedBuffer := some backBuffer }, mem, some backBuffer.width,
      outBounds, some newDirtyRegion, cb, false, backSlot⟩

/-- The body of lock() from the dequeue onward (lines 787-869): dequeue a
buffer, wait on its fence (canceling the buffer and propagating the wait
error on failure), compute this frame's dirty region, copy still-clean
pixels back from the posted front buffer when it exists with identical
width, height and format (lines 812-823), otherwise force a full redraw,
then run the bookkeeping tail. -/
def lockMain (sc : SurfaceState) (mem : Mem) (env : LockEnv) (d : Option Rect) :
    LockResult :=
  let dq := dequeueCore sc.slots env.dequeue env.request
  let s1 : SurfaceState := { sc with slots := dq.2.2 }
  if dq.1 ≠ OK then ⟨dq.1, s1, mem, none, d, none, none, false, none⟩
  else
    match dq.2.1 with
    | none => ⟨dq.1, s1, mem, none, d, none, none, false, none⟩
    | some backBuffer =>
      if env.fenceWaitResult ≠ 0 then
        ⟨env.fenceWaitResult, s1, mem, none, d, none, none, true, none⟩
      else
        let bounds := boundsRect backBuffer
        let newDirtyRegion := lockNewDirtyRegion d bounds
        match s1.postedBuffer with
        | some front =>
          if backBuffer.width = front.width ∧ backBuffer.height = front.height ∧
              backBuffer.format = front.format then
            let copyback := s1.dirtyRegion \ newDirtyRegion
            let mem1 := if copyback = ∅ then mem else copyBlt backBuffer front copyback mem
            lockFinish s1 mem1 env newDirtyRegion backBuffer d
              (if copyback = ∅ then none else some copyback)
          else
            lockFinish (clearAllDirty s1) mem env bounds.toRegion backBuffer d none
        | none =>
          lockFinish (clearAllDirty s1) mem env bounds.toRegion backBuffer d none

/-- Surface::lock (lines 770-871): refuse a second lock with
INVALID_OPERATION while a buffer is held; auto-connect as a CPU client on
first use, installing the software-rendering usage bits, and propagate a
connect failure; then run the main body. -/
def Surface.lock (s : SurfaceState) (mem : Mem) (env : LockEnv) (d : Option Rect) :
    LockResult :=
  if s.lockedBuffer.isSome then
    ⟨INVALID_OPERATION, s, mem, none, d, none, none, false, none⟩
  else if s.connectedToCpu then lockMain s mem env d
  else
    let c := Surface.connect s NATIVE_WINDOW_API_CPU env.connectErr env.connectOutput
    if c.1 ≠ 0 then ⟨c.1, c.2, mem, none, d, none, none, false, none⟩
    else lockMain (Surface.setUsage c.2 GRALLOC_USAGE_SW_RW_OFTEN).2 mem env d

/-! ## Compositor scene state and transaction commit

SurfaceFlinger.h declares State mCurrentState, State mDrawingState and
commitTransaction(); the defining .cpp is not among the sources, so the
commit discipline is modelled from the spec. -/

/-- One full compositor scene snapshot: the depth-ordered layer list and
the keyed display configurations (spec section 3). -/
structure SceneState where
  layersSortedByZ : List Nat
  displays : List (Nat × Nat)
deriving DecidableEq

/-- Modelled from the spec: the double-buffered scene state of
SurfaceFlinger (SurfaceFlinger.h lines 479, 480 and 509; the defining
SurfaceFlinger.cpp is not among the sources). mCurrentState is mutated by
incoming transactions under the state lock, mTransactionFlags accumulates
the pending-transaction bits, and mDrawingState is owned by the main
thread. -/
structure FlingerState where
  mCurrentState : SceneState
  mDrawingState : SceneState
  mTransactionFlags : Nat

/-- Modelled from the spec: the operations touching the double-buffered
scene state (spec sections 4.2 and 4.3).  An incoming client request
mutates mCurrentState only and ORs a flag word into the pending
transaction flags; commitTransaction, called exclusively from the
compositor main loop, replaces mDrawingState with mCurrentState and
clears the pending flags; a repaint reads mDrawingState only. -/
inductive FlingerOp where
  | setTransactionState (f : SceneState → SceneState) (flags : Nat)
  | commitTransaction
  | handleRepaint

/-- Modelled from the spec: the effect of one operation on the compositor
state. -/
def FlingerOp.step : FlingerOp → FlingerState → FlingerState
  | .setTransactionState f flags, s =>
      { s with
        mCurrentState := f s.mCurrentState
        mTransactionFlags := s.mTransactionFlags ||| flags }
  | .commitTransaction, s =>
      { s with mDrawingState := s.mCurrentState, mTransactionFlags := 0 }
  | .handleRepaint, s => s

/-- Run a sequence of compositor operations. -/
def flingerRun : List FlingerOp → FlingerState → FlingerState
  | [], s => s
  | op :: ops, s => flingerRun ops (op.step s)

/-- The state after the dequeue inside lock(): only the slot table has
changed. -/
def postDequeue (sc : SurfaceState) (env : LockEnv) : SurfaceState :=
  { sc with slots := (dequeueCore sc.slots env.dequeue env.request).2.2 }

/-- The observable net effect of the copy-back-ineligible arm of lock():
the dirty region of this frame was forced to the full buffer bounds, no
pixels were copied, and after the bookkeeping the accumulated dirty
region equals the full bounds while every slot other than the dequeued
one has an empty dirty history. -/
def forcedFullRedraw (r : LockResult) (b : GraphicBuffer) (mem : Mem) : Prop :=
  r.newDirtyRegion = some (boundsRegion b) ∧
  r.copyback = none ∧
  r.mem = mem ∧
  r.state.dirtyRegion = boundsRegion b ∧
  ∀ i, r.backSlot ≠ some i → (r.state.slots i).dirtyRegion = ∅

/-- The accumulated dirty region and every per-slot dirty history are
contained in the given pixel set. -/
def dirtyBoundedBy (s : SurfaceState) (bound : Region) : Prop :=
  s.dirtyRegion ⊆ bound ∧ ∀ i, (s.slots i).dirtyRegion ⊆ bound

/-! ## Concrete fixtures used by the witness theorems -/

/-- A 2x2 buffer with handle 1. -/
def bufA : GraphicBuffer := ⟨2, 2, 2, 1, 0, 1⟩

/-- A 2x2 buffer of the same format with handle 2. -/
def bufB : GraphicBuffer := ⟨2, 2, 2, 1, 0, 2⟩

/-- Slot index 0. -/
def slot0 : Fin NUM_BUFFER_SLOTS := ⟨0, by decide⟩

/-- Distinguishable pixel memory. -/
def memW : Mem := fun hdl p => hdl * 100 + p.1.toNat * 10 + p.2.toNat

/-- A producer output reporting three pending buffers. -/
def outW : QueueBufferOutput := ⟨7, 8, 2, 3⟩

/-- A CPU-connected surface whose slot 0 caches bufB, with bufA posted and
a fully dirty 2x2 accumulated region. -/
def sW : SurfaceState :=
  { initialSurface with
    connectedToCpu := true
    postedBuffer := some bufA
    dirtyRegion := Rect.toRegion ⟨0, 0, 2, 2⟩
    slots := fun i =>
      if i = slot0 then ⟨some bufB, Rect.toRegion ⟨0, 0, 2, 2⟩⟩
      else ⟨none, ∅⟩ }

/-- Oracles for a fully successful lock() call dequeuing slot 0. -/
def envW : LockEnv := ⟨0, ⟨0, 0, 0, 0⟩, ⟨0, slot0⟩, ⟨0, bufB⟩, 0, 0⟩

/-- Oracles for a lock() call whose fence wait fails with -5. -/
def envW8 : LockEnv := ⟨0, ⟨0, 0, 0, 0⟩, ⟨0, slot0⟩, ⟨0, bufB⟩, -5, 0⟩

/-- A transaction followed by a commit. -/
def flingerOpsW : List FlingerOp :=
  [FlingerOp.setTransactionState (fun st => ⟨5 :: st.layersSortedByZ, st.displays⟩) 1,
   FlingerOp.commitTransaction]

/-- An empty compositor state. -/
def flingerInitW : FlingerState := ⟨⟨[], []⟩, ⟨[], []⟩, 0⟩

/-! ## Helper lemmas -/

theorem Rect.mem_toRegion (p : Int × Int) (r : Rect) :
    p ∈ r.toRegion ↔
      (r.left ≤ p.1 ∧ p.1 ≤ r.right - 1) ∧ (r.top ≤ p.2 ∧ p.2 ≤ r.bottom - 1) := by
  simp [Rect.toRegion, Finset.mem_product, Finset.mem_Icc]

theorem freeAllSlots_dirtyRegion (sl : Fin NUM_BUFFER_SLOTS → BufferSlot)
    (i : Fin NUM_BUFFER_SLOTS) :
    (freeAllSlots sl i).dirtyRegion = (sl i).dirtyRegion := rfl

theorem dequeueFill_dirtyRegion (sl1 : Fin NUM_BUFFER_SLOTS → BufferSlot)
    (resp : DequeueResponse) (req : RequestBufferResponse) (i : Fin NUM_BUFFER_SLOTS) :
    ((dequeueFill sl1 resp req).2.2 i).dirtyRegion = (sl1 i).dirtyRegion := by
  unfold dequeueFill
  split
  · split
    · rfl
    · rcases eq_or_ne resp.slot i with rfl | hne
      · simp [Function.update_same]
      · simp [Function.update_noteq (Ne.symm hne)]
  · rfl

/-- dequeueBuffer never touches any dirty-region history. -/
theorem dequeueCore_dirtyRegion (sl : Fin NUM_BUFFER_SLOTS → BufferSlot)
    (resp : DequeueResponse) (req : RequestBufferResponse) (i : Fin NUM_BUFFER_SLOTS) :
    ((dequeueCore sl resp req).2.2 i).dirtyRegion = (sl i).dirtyRegion := by
  unfold dequeueCore
  split
  · rfl
  · rw [dequeueFill_dirtyRegion]
    split <;> rfl

theorem connect_fst (s : SurfaceState) (api err : Int) (out : QueueBufferOutput) :
    (Surface.connect s api err out).1 = err := by
  unfold Surface.connect
  split
  · split <;> rfl
  · rfl

theorem connect_slots (s : SurfaceState) (api err : Int) (out : QueueBufferOutput) :
    (Surface.connect s api err out).2.slots = s.slots := by
  unfold Surface.connect
  split
  · split <;> rfl
  · rfl

theorem connect_postedBuffer (s : SurfaceState) (api err : Int) (out : QueueBufferOutput) :
    (Surface.connect s api err out).2.postedBuffer = s.postedBuffer := by
  unfold Surface.connect
  split
  · split <;> rfl
  · rfl

theorem connect_dirtyRegion (s : SurfaceState) (api err : Int) (out : QueueBufferOutput) :
    (Surface.connect s api err out).2.dirtyRegion = s.dirtyRegion := by
  unfold Surface.connect
  split
  · split <;> rfl
  · rfl

theorem connect_lockedBuffer (s : SurfaceState) (api err : Int) (out : QueueBufferOutput) :
    (Surface.connect s api err out).2.lockedBuffer = s.lockedBuffer := by
  unfold Surface.connect
  split
  · split <;> rfl
  · rfl

/-- Reduction of Surface::lock to its main body: with no buffer locked and
the auto-connect not failing, lock runs lockMain from a state that agrees
with the input on the slot table, the posted buffer, the accumulated dirty
region and the (absent) locked buffer. -/
theorem lock_reduces (s : SurfaceState) (mem : Mem) (env : LockEnv) (d : Option Rect)
    (hnl : s.lockedBuffer = none)
    (hc : s.connectedToCpu = true ∨ env.connectErr = NO_ERROR) :
    ∃ sc : SurfaceState, Surface.lock s mem env d = lockMain sc mem env d ∧
      sc.slots = s.slots ∧ sc.postedBuffer = s.postedBuffer ∧
      sc.dirtyRegion = s.dirtyRegion ∧ sc.lockedBuffer = none := by
  simp only [Surface.lock, hnl, Option.isSome_none, Bool.false_eq_true, if_false]
  by_cases hcpu : s.connectedToCpu = true
  · rw [if_pos hcpu]
    exact ⟨s, rfl, rfl, rfl, rfl, hnl⟩
  · rw [if_neg hcpu]
    rcases hc with hc | hc
    · exact absurd hc hcpu
    · have hcc : ¬((Surface.connect s NATIVE_WINDOW_API_CPU env.connectErr
          env.connectOutput).1 ≠ 0) := by
        rw [connect_fst, hc]
        simp [NO_ERROR]
      rw [if_neg hcc]
      refine ⟨(Surface.setUsage (Surface.connect s NATIVE_WINDOW_API_CPU env.connectErr
        env.connectOutput).2 GRALLOC_USAGE_SW_RW_OFTEN).2, rfl, ?_, ?_, ?_, ?_⟩
      · exact connect_slots s NATIVE_WINDOW_API_CPU env.connectErr env.connectOutput
      · exact connect_postedBuffer s NATIVE_WINDOW_API_CPU env.connectErr env.connectOutput
      · exact connect_dirtyRegion s NATIVE_WINDOW_API_CPU env.connectErr env.connectOutput
      · exact (connect_lockedBuffer s NATIVE_WINDOW_API_CPU env.connectErr
          env.connectOutput).trans hnl

/-- Characterization of lockMain on the path where the dequeue succeeded
and the fence wait succeeded. -/
theorem lockMain_eq (sc : SurfaceState) (mem : Mem) (env : LockEnv) (d : Option Rect)
    (b : GraphicBuffer)
    (hd : (dequeueCore sc.slots env.dequeue env.request).1 = OK)
    (hb : (dequeueCore sc.slots env.dequeue env.request).2.1 = some b)
    (hw : env.fenceWaitResult = 0) :
    lockMain sc mem env d =
      match sc.postedBuffer with
      | some front =>
        if b.width = front.width ∧ b.height = front.height ∧ b.format = front.format then
          lockFinish (postDequeue sc env)
            (if sc.dirtyRegion \ lockNewDirtyRegion d (boundsRect b) = ∅ then mem
             else copyBlt b front (sc.dirtyRegion \ lockNewDirtyRegion d (boundsRect b)) mem)
            env (lockNewDirtyRegion d (boundsRect b)) b d
            (if sc.dirtyRegion \ lockNewDirtyRegion d (boundsRect b) = ∅ then none
             else some (sc.dirtyRegion \ lockNewDirtyRegion d (boundsRect b)))
        else lockFinish (clearAllDirty (postDequeue sc env)) mem env
          (boundsRect b).toRegion b d none
      | none => lockFinish (clearAllDirty (postDequeue sc env)) mem env
          (boundsRect b).toRegion b d none := by
  unfold lockMain
  simp only [hd, hb, hw, ne_eq, not_true_eq_false, if_false]
  rfl

theorem lockFinish_mem (s : SurfaceState) (mem : Mem) (env : LockEnv) (nd : Region)
    (b : GraphicBuffer) (d : Option Rect) (cb : Option Region) :
    (lockFinish s mem env nd b d cb).mem = mem := by
  unfold lockFinish
  split <;> rfl

theorem lockFinish_copyback (s : SurfaceState) (mem : Mem) (env : LockEnv) (nd : Region)
    (b : GraphicBuffer) (d : Option Rect) (cb : Option Region) :
    (lockFinish s mem env nd b d cb).copyback = cb := by
  unfold lockFinish
  split <;> rfl

theorem lockFinish_newDirtyRegion (s : SurfaceState) (mem : Mem) (env : LockEnv)
    (nd : Region) (b : GraphicBuffer) (d : Option Rect) (cb : Option Region) :
    (lockFinish s mem env nd b d cb).newDirtyRegion = some nd := by
  unfold lockFinish
  split <;> rfl

theorem applyDirtyBookkeeping_dirtyRegion (s : SurfaceState) (nd : Region)
    (b : GraphicBuffer) :
    (applyDirtyBookkeeping s nd b).dirtyRegion = s.dirtyRegion := by
  unfold applyDirtyBookkeeping
  split <;> rfl

theorem applyDirtyBookkeeping_lockedBuffer (s : SurfaceState) (nd : Region)
    (b : GraphicBuffer) :
    (applyDirtyBookkeeping s nd b).lockedBuffer = s.lockedBuffer := by
  unfold applyDirtyBookkeeping
  split <;> rfl

theorem applyDirtyBookkeeping_postedBuffer (s : SurfaceState) (nd : Region)
    (b : GraphicBuffer) :
    (applyDirtyBookkeeping s nd b).postedBuffer = s.postedBuffer := by
  unfold applyDirtyBookkeeping
  split <;> rfl

theorem applyDirtyBookkeeping_slots_dirtyRegion (s : SurfaceState) (nd : Region)
    (b : GraphicBuffer) (i : Fin NUM_BUFFER_SLOTS) :
    ((applyDirtyBookkeeping s nd b).slots i).dirtyRegion =
      if findSlot s b = some i then nd else (s.slots i).dirtyRegion := by
  unfold applyDirtyBookkeeping
  rcases hfs : findSlot s b with _ | j
  · simp
  · rcases eq_or_ne j i with rfl | hne
    · simp [Function.update_same]
    · have hne2 : ¬((some j : Option (Fin NUM_BUFFER_SLOTS)) = some i) := by simp [hne]
      simp [Function.update_noteq (Ne.symm hne), hne2]

theorem lockFinish_backSlot (s : SurfaceState) (mem : Mem) (env : LockEnv)
    (nd : Region) (b : GraphicBuffer) (d : Option Rect) (cb : Option Region) :
    (lockFinish s mem env nd b d cb).backSlot = findSlot s b := by
  unfold lockFinish
  split <;> rfl

theorem lockFinish_dirtyRegion (s : SurfaceState) (mem : Mem) (env : LockEnv)
    (nd : Region) (b : GraphicBuffer) (d : Option Rect) (cb : Option Region) :
    (lockFinish s mem env nd b d cb).state.dirtyRegion = s.dirtyRegion ∪ nd := by
  unfold lockFinish
  split <;> simp [applyDirtyBookkeeping_dirtyRegion]

theorem lockFinish_slots_dirtyRegion (s : SurfaceState) (mem : Mem) (env : LockEnv)
    (nd : Region) (b : GraphicBuffer) (d : Option Rect) (cb : Option Region)
    (i : Fin NUM_BUFFER_SLOTS) :
    ((lockFinish s mem env nd b d cb).state.slots i).dirtyRegion =
      if findSlot s b = some i then nd else (s.slots i).dirtyRegion := by
  unfold lockFinish
  split <;> simpa using applyDirtyBookkeeping_slots_dirtyRegion s nd b i

theorem lockFinish_lockedBuffer (s : SurfaceState) (mem : Mem) (env : LockEnv)
    (nd : Region) (b : GraphicBuffer) (d : Option Rect) (cb : Option Region) :
    (lockFinish s mem env nd b d cb).state.lockedBuffer =
      if env.grallocLockResult ≠ 0 then s.lockedBuffer else some b := by
  by_cases h : env.grallocLockResult ≠ 0
  · simp only [lockFinish, if_pos h, applyDirtyBookkeeping_lockedBuffer]
  · simp only [lockFinish, if_neg h]

theorem clearAllDirty_findSlot (s : SurfaceState) (b : GraphicBuffer) :
    findSlot (clearAllDirty s) b = findSlot s b := rfl

/-- The dirty region of this frame is always within the supplied bounds. -/
theorem lockNewDirtyRegion_subset (d : Option Rect) (bounds : Rect) :
    lockNewDirtyRegion d bounds ⊆ bounds.toRegion := by
  cases d with
  | none => exact Finset.Subset.refl _
  | some r => exact Finset.inter_subset_right

/-- lockMain on the path where the dequeue succeeded but the fence wait
failed: the buffer is canceled and the wait error returned. -/
theorem lockMain_fence_fail (sc : SurfaceState) (mem : Mem) (env : LockEnv)
    (d : Option Rect) (b : GraphicBuffer)
    (hd : (dequeueCore sc.slots env.dequeue env.request).1 = OK)
    (hb : (dequeueCore sc.slots env.dequeue env.request).2.1 = some b)
    (hw : env.fenceWaitResult ≠ 0) :
    lockMain sc mem env d =
      ⟨env.fenceWaitResult, postDequeue sc env, mem, none, d, none, none, true, none⟩ := by
  unfold lockMain
  simp only [hd, hb, hw, ne_eq, not_true_eq_false, if_false, not_false_eq_true, if_true]
  rfl

/-- The copy-back-ineligible tail forces a full redraw. -/
theorem lockFinish_clear_forced (s1 : SurfaceState) (mem : Mem) (env : LockEnv)
    (b : GraphicBuffer) (d : Option Rect) :
    forcedFullRedraw
      (lockFinish (clearAllDirty s1) mem env (boundsRect b).toRegion b d none) b mem := by
  refine ⟨?_, ?_, ?_, ?_, ?_⟩
  · rw [lockFinish_newDirtyRegion]
    rfl
  · rw [lockFinish_copyback]
  · rw [lockFinish_mem]
  · rw [lockFinish_dirtyRegion]
    show (∅ : Region) ∪ (boundsRect b).toRegion = boundsRegion b
    rw [Finset.empty_union]
    rfl
  · intro i hi
    rw [lockFinish_backSlot] at hi
    rw [lockFinish_slots_dirtyRegion, if_neg hi]
    rfl

/-- The copy-back-ineligible tail leaves every dirty region within the
full bounds of the dequeued buffer. -/
theorem lockFinish_clear_bounded (s1 : SurfaceState) (mem : Mem) (env : LockEnv)
    (b : GraphicBuffer) (d : Option Rect) :
    dirtyBoundedBy
      (lockFinish (clearAllDirty s1) mem env (boundsRect b).toRegion b d none).state
      (boundsRegion b) ∧
    (∃ nd, (lockFinish (clearAllDirty s1) mem env (boundsRect b).toRegion b d
        none).newDirtyRegion = some nd ∧ nd ⊆ boundsRegion b) := by
  refine ⟨⟨?_, ?_⟩, ⟨(boundsRect b).toRegion,
    lockFinish_newDirtyRegion _ _ _ _ _ _ _, Finset.Subset.refl _⟩⟩
  · rw [lockFinish_dirtyRegion]
    show (∅ : Region) ∪ (boundsRect b).toRegion ⊆ boundsRegion b
    rw [Finset.empty_union]
    exact Finset.Subset.refl _
  · intro i
    rw [lockFinish_slots_dirtyRegion]
    split
    · exact Finset.Subset.refl _
    · exact Finset.empty_subset _

/-! ## Claim theorems -/

/-- C2: calling lock while a buffer is already locked returns
INVALID_OPERATION with no state change (in particular the locked-buffer
pointer is unchanged), and calling unlockAndPost while no buffer is
locked returns INVALID_OPERATION with no state change; for every surface
state. -/
theorem lock_unlock_protocol_violation (s : SurfaceState) (mem : Mem) (env : LockEnv)
    (d : Option Rect) (b : GraphicBuffer) (now producerErr : Int)
    (out : QueueBufferOutput) :
    (s.lockedBuffer = some b →
      Surface.lock s mem env d =
        ⟨INVALID_OPERATION, s, mem, none, d, none, none, false, none⟩) ∧
    (s.lockedBuffer = none →
      Surface.unlockAndPost s now producerErr out = (INVALID_OPERATION, s)) := by
  constructor
  · intro h
    simp [Surface.lock, h]
  · intro h
    simp [Surface.unlockAndPost, h]

/-- C2 witness: a double lock on a surface holding bufA fails and leaves
the state alone, and unlockAndPost on a freshly constructed surface fails
and leaves the state alone. -/
theorem lock_unlock_protocol_violation_witness :
    Surface.lock { initialSurface with lockedBuffer := some bufA } memW envW none =
      ⟨INVALID_OPERATION, { initialSurface with lockedBuffer := some bufA }, memW,
        none, none, none, none, false, none⟩ ∧
    Surface.unlockAndPost initialSurface 0 0 ⟨0, 0, 0, 0⟩ =
      (INVALID_OPERATION, initialSurface) :=
  ⟨(lock_unlock_protocol_violation { initialSurface with lockedBuffer := some bufA }
      memW envW none bufA 0 0 ⟨0, 0, 0, 0⟩).1 rfl,
   (lock_unlock_protocol_violation initialSurface memW envW none bufA 0 0
      ⟨0, 0, 0, 0⟩).2 rfl⟩

/-- C3: setBuffersDimensions returns BAD_VALUE, storing nothing, when a
dimension is negative or exactly one of the two is zero; it stores the
requested dimensions and returns NO_ERROR when both are positive or both
are zero. -/
theorem setBuffersDimensions_spec (w h : Int) (s : SurfaceState) :
    ((w < 0 ∨ h < 0 ∨ (w ≠ 0 ∧ h = 0) ∨ (w = 0 ∧ h ≠ 0)) →
      Surface.setBuffersDimensions w h s = (BAD_VALUE, s)) ∧
    (((0 < w ∧ 0 < h) ∨ (w = 0 ∧ h = 0)) →
      Surface.setBuffersDimensions w h s =
        (NO_ERROR, { s with reqWidth := w, reqHeight := h })) := by
  constructor
  · intro hbad
    unfold Surface.setBuffersDimensions
    by_cases hneg : w < 0 ∨ h < 0
    · rw [if_pos hneg]
    · rw [if_neg hneg]
      have hxor : (w ≠ 0 ∧ h = 0) ∨ (w = 0 ∧ h ≠ 0) := by
        rcases hbad with h1 | h1 | h1 | h1
        · exact absurd (Or.inl h1) hneg
        · exact absurd (Or.inr h1) hneg
        · exact Or.inl h1
        · exact Or.inr h1
      rw [if_pos hxor]
  · intro hok
    unfold Surface.setBuffersDimensions
    have h1 : ¬(w < 0 ∨ h < 0) := by omega
    have h2 : ¬((w ≠ 0 ∧ h = 0) ∨ (w = 0 ∧ h ≠ 0)) := by omega
    rw [if_neg h1, if_neg h2]

/-- C3 witness: a negative width is rejected without a store, and 4x5 is
stored with NO_ERROR. -/
theorem setBuffersDimensions_spec_witness :
    Surface.setBuffersDimensions (-1) 5 initialSurface = (BAD_VALUE, initialSurface) ∧
    Surface.setBuffersDimensions 4 5 initialSurface =
      (NO_ERROR, { initialSurface with reqWidth := 4, reqHeight := 5 }) :=
  ⟨(setBuffersDimensions_spec (-1) 5 initialSurface).1 (by decide),
   (setBuffersDimensions_spec 4 5 initialSurface).2 (by decide)⟩

/-- C6: after a queueBuffer that found its slot (which every successful
call did), the consumer-running-behind flag is set iff the reported
pending-buffer count is at least 2, and the status returned is exactly
the producer status, independent of that count (the flag is advisory
and queueBuffer does not block on it); after a successful connect the
flag is likewise set iff the reported pending count is at least 2. -/
theorem consumerRunningBehind_spec (s : SurfaceState) (b : GraphicBuffer)
    (now producerErr : Int) (out : QueueBufferOutput) (api err : Int) :
    (findSlot s b ≠ none →
      ((Surface.queueBuffer s b now producerErr out).2.2.consumerRunningBehind = true ↔
        2 ≤ out.numPendingBuffers) ∧
      (Surface.queueBuffer s b now producerErr out).1 = producerErr) ∧
    (err = NO_ERROR →
      ((Surface.connect s api err out).2.consumerRunningBehind = true ↔
        2 ≤ out.numPendingBuffers)) := by
  constructor
  · intro hfs
    rcases hopt : findSlot s b with _ | i
    · exact absurd hopt hfs
    · constructor
      · simp [Surface.queueBuffer, hopt]
      · simp [Surface.queueBuffer, hopt]
  · intro herr
    unfold Surface.connect
    rw [if_pos herr]
    split
    · simp
    · simp

/-- C6 witness: with three pending buffers reported, the flag comes back
set after queueBuffer (which still returns the producer status) and after
connect. -/
theorem consumerRunningBehind_spec_witness :
    (((Surface.queueBuffer sW bufB 5 0 outW).2.2.consumerRunningBehind = true ↔
        2 ≤ outW.numPendingBuffers) ∧
      (Surface.queueBuffer sW bufB 5 0 outW).1 = 0) ∧
    ((Surface.connect sW NATIVE_WINDOW_API_CPU 0 outW).2.consumerRunningBehind = true ↔
        2 ≤ outW.numPendingBuffers) :=
  ⟨(consumerRunningBehind_spec sW bufB 5 0 outW NATIVE_WINDOW_API_CPU 0).1 (by decide),
   (consumerRunningBehind_spec sW bufB 5 0 outW NATIVE_WINDOW_API_CPU 0).2 rfl⟩

/-- C7: disconnect always frees every cached buffer-slot content; when
the producer disconnect succeeds it resets requested width, height,
format and usage to 0, clears the crop, resets the scaling mode to
FREEZE and the transform to 0; an out-of-sequence disconnect just
returns the producer error with only the buffers freed. -/
theorem disconnect_spec (s : SurfaceState) (api err : Int) :
    (Surface.disconnect s api err).1 = err ∧
    (∀ i, ((Surface.disconnect s api err).2.slots i).buffer = none) ∧
    (err = NO_ERROR →
      (Surface.disconnect s api err).2.reqWidth = 0 ∧
      (Surface.disconnect s api err).2.reqHeight = 0 ∧
      (Surface.disconnect s api err).2.reqFormat = 0 ∧
      (Surface.disconnect s api err).2.reqUsage = 0 ∧
      (Surface.disconnect s api err).2.crop = ⟨0, 0, 0, 0⟩ ∧
      (Surface.disconnect s api err).2.scalingMode = NATIVE_WINDOW_SCALING_MODE_FREEZE ∧
      (Surface.disconnect s api err).2.transform = 0) ∧
    (err ≠ NO_ERROR → Surface.disconnect s api err = (err, freeAllBuffers s)) := by
  unfold Surface.disconnect
  by_cases herr : err = 0
  · rw [if_pos herr]
    split
    · exact ⟨rfl, fun i => rfl, fun _ => ⟨rfl, rfl, rfl, rfl, rfl, rfl, rfl⟩,
        fun hne => absurd herr hne⟩
    · exact ⟨rfl, fun i => rfl, fun _ => ⟨rfl, rfl, rfl, rfl, rfl, rfl, rfl⟩,
        fun hne => absurd herr hne⟩
  · rw [if_neg herr]
    exact ⟨rfl, fun i => rfl, fun h0 => absurd h0 herr, fun _ => rfl⟩

/-- C7 witness: a successful disconnect of the CPU api on the populated
surface resets geometry and crop and leaves every slot without a
buffer. -/
theorem disconnect_spec_witness :
    (Surface.disconnect sW NATIVE_WINDOW_API_CPU 0).2.reqWidth = 0 ∧
    (Surface.disconnect sW NATIVE_WINDOW_API_CPU 0).2.crop = ⟨0, 0, 0, 0⟩ ∧
    (Surface.disconnect sW NATIVE_WINDOW_API_CPU 0).2.scalingMode =
      NATIVE_WINDOW_SCALING_MODE_FREEZE ∧
    ∀ i, ((Surface.disconnect sW NATIVE_WINDOW_API_CPU 0).2.slots i).buffer = none :=
  ⟨((disconnect_spec sW NATIVE_WINDOW_API_CPU 0).2.2.1 rfl).1,
   ((disconnect_spec sW NATIVE_WINDOW_API_CPU 0).2.2.1 rfl).2.2.2.2.1,
   ((disconnect_spec sW NATIVE_WINDOW_API_CPU 0).2.2.1 rfl).2.2.2.2.2.1,
   (disconnect_spec sW NATIVE_WINDOW_API_CPU 0).2.1⟩

/-- C9: every queueBuffer call on a buffer held in some slot submits a
payload whose timestamp is the capture time with the auto flag set when
the policy is auto, and the configured timestamp with the auto flag clear
otherwise, and whose crop is the configured crop intersected with the
buffer's width-by-height bounds. -/
theorem queueBuffer_timestamp_crop (s : SurfaceState) (b : GraphicBuffer)
    (now producerErr : Int) (out : QueueBufferOutput)
    (hfs : findSlot s b ≠ none) :
    ∃ q : QueueBufferInput,
      (Surface.queueBuffer s b now producerErr out).2.1 = some q ∧
      q.crop = Rect.intersect s.crop (boundsRect b) ∧
      q.scalingMode = s.scalingMode ∧ q.transform = s.transform ∧
      (s.timestamp = NATIVE_WINDOW_TIMESTAMP_AUTO →
        q.timestamp = now ∧ q.isAutoTimestamp = true) ∧
      (s.timestamp ≠ NATIVE_WINDOW_TIMESTAMP_AUTO →
        q.timestamp = s.timestamp ∧ q.isAutoTimestamp = false) := by
  rcases hopt : findSlot s b with _ | i
  · exact absurd hopt hfs
  · refine ⟨⟨if s.timestamp = NATIVE_WINDOW_TIMESTAMP_AUTO then now else s.timestamp,
      s.timestamp == NATIVE_WINDOW_TIMESTAMP_AUTO,
      Rect.intersect s.crop (boundsRect b), s.scalingMode, s.transform,
      s.swapIntervalZero⟩, ?_, rfl, rfl, rfl, ?_, ?_⟩
    · simp [Surface.queueBuffer, hopt]
    · intro hauto
      exact ⟨by rw [if_pos hauto], by simp [hauto]⟩
    · intro hexp
      exact ⟨by rw [if_neg hexp], by simp [hexp]⟩

/-- C9 witness: on the populated surface (auto timestamp policy), queuing
bufB submits the capture time with the auto flag and the clipped crop. -/
theorem queueBuffer_timestamp_crop_witness :
    ∃ q : QueueBufferInput,
      (Surface.queueBuffer sW bufB 5 0 outW).2.1 = some q ∧
      q.crop = Rect.intersect sW.crop (boundsRect bufB) ∧
      q.scalingMode = sW.scalingMode ∧ q.transform = sW.transform ∧
      (sW.timestamp = NATIVE_WINDOW_TIMESTAMP_AUTO →
        q.timestamp = 5 ∧ q.isAutoTimestamp = true) ∧
      (sW.timestamp ≠ NATIVE_WINDOW_TIMESTAMP_AUTO →
        q.timestamp = sW.timestamp ∧ q.isAutoTimestamp = false) :=
  queueBuffer_timestamp_crop sW bufB 5 0 outW (by decide)

/-- C10: every unlockAndPost call made while a buffer is locked stores
the locked buffer as the posted buffer and clears the locked buffer,
even when the internal queueBuffer fails, and it returns exactly the
internal queueBuffer status. -/
theorem unlockAndPost_always_unlocks (s : SurfaceState) (b : GraphicBuffer)
    (now producerErr : Int) (out : QueueBufferOutput)
    (h : s.lockedBuffer = some b) :
    (Surface.unlockAndPost s now producerErr out).2.postedBuffer = some b ∧
    (Surface.unlockAndPost s now producerErr out).2.lockedBuffer = none ∧
    (Surface.unlockAndPost s now producerErr out).1 =
      (Surface.queueBuffer s b now producerErr out).1 := by
  simp [Surface.unlockAndPost, h]

/-- C10 witness: even with the producer failing the queue with -5, the
posted buffer becomes the previously locked bufB, the lock is released,
and the -5 is returned. -/
theorem unlockAndPost_always_unlocks_witness :
    (Surface.unlockAndPost { sW with lockedBuffer := some bufB } 5 (-5) outW).2.postedBuffer
        = some bufB ∧
    (Surface.unlockAndPost { sW with lockedBuffer := some bufB } 5 (-5) outW).2.lockedBuffer
        = none ∧
    (Surface.unlockAndPost { sW with lockedBuffer := some bufB } 5 (-5) outW).1 =
      (Surface.queueBuffer { sW with lockedBuffer := some bufB } bufB 5 (-5) outW).1 ∧
    (Surface.queueBuffer { sW with lockedBuffer := some bufB } bufB 5 (-5) outW).1 = -5 :=
  ⟨(unlockAndPost_always_unlocks { sW with lockedBuffer := some bufB } bufB 5 (-5)
      outW rfl).1,
   (unlockAndPost_always_unlocks { sW with lockedBuffer := some bufB } bufB 5 (-5)
      outW rfl).2.1,
   (unlockAndPost_always_unlocks { sW with lockedBuffer := some bufB } bufB 5 (-5)
      outW rfl).2.2,
   by decide⟩

/-- C8: when the fence wait after a successful dequeue inside lock fails,
lock cancels the dequeued buffer, returns the original wait error (never
swallowed), hands no buffer to the caller, leaves nothing locked, and
touches no pixel memory. -/
theorem lock_fence_error_cancels (s : SurfaceState) (mem : Mem) (env : LockEnv)
    (d : Option Rect) (b : GraphicBuffer)
    (hnl : s.lockedBuffer = none)
    (hc : s.connectedToCpu = true ∨ env.connectErr = NO_ERROR)
    (hd : (dequeueCore s.slots env.dequeue env.request).1 = OK)
    (hb : (dequeueCore s.slots env.dequeue env.request).2.1 = some b)
    (hw : env.fenceWaitResult ≠ 0) :
    (Surface.lock s mem env d).status = env.fenceWaitResult ∧
    (Surface.lock s mem env d).canceled = true ∧
    (Surface.lock s mem env d).outWidth = none ∧
    (Surface.lock s mem env d).state.lockedBuffer = none ∧
    (Surface.lock s mem env d).mem = mem := by
  obtain ⟨sc, heq, hsl, hpb, hdr, hlb⟩ := lock_reduces s mem env d hnl hc
  rw [← hsl] at hd hb
  rw [heq, lockMain_fence_fail sc mem env d b hd hb hw]
  exact ⟨rfl, rfl, rfl, hlb, rfl⟩

/-- C8 witness: a fence wait failing with -5 after dequeuing bufB makes
lock cancel and report -5, with no buffer handed out and memory alone. -/
theorem lock_fence_error_cancels_witness :
    (Surface.lock sW memW envW8 none).status = -5 ∧
    (Surface.lock sW memW envW8 none).canceled = true ∧
    (Surface.lock sW memW envW8 none).outWidth = none ∧
    (Surface.lock sW memW envW8 none).state.lockedBuffer = none ∧
    (Surface.lock sW memW envW8 none).mem = memW :=
  lock_fence_error_cancels sW memW envW8 none bufB rfl (Or.inl rfl)
    (by decide) (by decide) (by decide)

/-- C1: for every lock() call that dequeues a buffer successfully and
passes the fence wait: when a posted buffer exists with identical width,
height and format, lock copies back from it exactly the accumulated dirty
history minus this frame's new dirty region (the pixels of the new buffer
agree with the posted buffer on that difference and are untouched
elsewhere); otherwise lock forces the new dirty region to the full buffer
bounds, copies nothing, and clears the dirty histories, leaving every
slot other than the dequeued one empty. -/
theorem lock_copyback_spec (s : SurfaceState) (mem : Mem) (env : LockEnv)
    (d : Option Rect) (b : GraphicBuffer)
    (hnl : s.lockedBuffer = none)
    (hc : s.connectedToCpu = true ∨ env.connectErr = NO_ERROR)
    (hd : (dequeueCore s.slots env.dequeue env.request).1 = OK)
    (hb : (dequeueCore s.slots env.dequeue env.request).2.1 = some b)
    (hw : env.fenceWaitResult = 0) :
    (∀ front, s.postedBuffer = some front →
      ((b.width = front.width ∧ b.height = front.height ∧ b.format = front.format) →
        (Surface.lock s mem env d).newDirtyRegion =
          some (lockNewDirtyRegion d (boundsRect b)) ∧
        (Surface.lock s mem env d).copyback =
          (if s.dirtyRegion \ lockNewDirtyRegion d (boundsRect b) = ∅ then none
           else some (s.dirtyRegion \ lockNewDirtyRegion d (boundsRect b))) ∧
        (∀ p, (Surface.lock s mem env d).mem b.handle p =
          if p ∈ s.dirtyRegion \ lockNewDirtyRegion d (boundsRect b)
          then mem front.handle p else mem b.handle p) ∧
        (∀ hdl, hdl ≠ b.handle →
          ∀ p, (Surface.lock s mem env d).mem hdl p = mem hdl p)) ∧
      (¬(b.width = front.width ∧ b.height = front.height ∧ b.format = front.format) →
        forcedFullRedraw (Surface.lock s mem env d) b mem)) ∧
    (s.postedBuffer = none → forcedFullRedraw (Surface.lock s mem env d) b mem) := by
  obtain ⟨sc, heq, hsl, hpb, hdr, hlb⟩ := lock_reduces s mem env d hnl hc
  rw [← hsl] at hd hb
  rw [heq, lockMain_eq sc mem env d b hd hb hw]
  constructor
  · intro front hfront
    have hfront2 : sc.postedBuffer = some front := by rw [hpb, hfront]
    simp only [hfront2]
    constructor
    · intro hdim
      rw [if_pos hdim]
      refine ⟨?_, ?_, ?_, ?_⟩
      · rw [lockFinish_newDirtyRegion]
      · rw [lockFinish_copyback, hdr]
      · intro p
        rw [lockFinish_mem]
        by_cases hcb :
            sc.dirtyRegion \ lockNewDirtyRegion d (boundsRect b) = ∅
        · rw [if_pos hcb, ← hdr, hcb]
          simp
        · rw [if_neg hcb]
          unfold copyBlt
          rw [if_pos rfl, hdr]
      · intro hdl hne p
        rw [lockFinish_mem]
        by_cases hcb :
            sc.dirtyRegion \ lockNewDirtyRegion d (boundsRect b) = ∅
        · rw [if_pos hcb]
        · rw [if_neg hcb]
          unfold copyBlt
          rw [if_neg hne]
    · intro hdim
      rw [if_neg hdim]
      exact lockFinish_clear_forced _ mem env b d
  · intro hnone
    have h2 : sc.postedBuffer = none := by rw [hpb, hnone]
    simp only [h2]
    exact lockFinish_clear_forced _ mem env b d

/-- C1 witness: on the populated surface with identical-geometry bufA
posted and a fully dirty 2x2 history, locking with dirty rectangle
(0,0,1,1) copies back exactly the three remaining pixels from bufA. -/
theorem lock_copyback_spec_witness :
    (Surface.lock sW memW envW (some ⟨0, 0, 1, 1⟩)).newDirtyRegion =
      some (lockNewDirtyRegion (some ⟨0, 0, 1, 1⟩) (boundsRect bufB)) ∧
    (Surface.lock sW memW envW (some ⟨0, 0, 1, 1⟩)).copyback =
      (if sW.dirtyRegion \ lockNewDirtyRegion (some ⟨0, 0, 1, 1⟩) (boundsRect bufB) = ∅
       then none
       else some (sW.dirtyRegion \
         lockNewDirtyRegion (some ⟨0, 0, 1, 1⟩) (boundsRect bufB))) ∧
    (∀ p, (Surface.lock sW memW envW (some ⟨0, 0, 1, 1⟩)).mem bufB.handle p =
      if p ∈ sW.dirtyRegion \ lockNewDirtyRegion (some ⟨0, 0, 1, 1⟩) (boundsRect bufB)
      then memW bufA.handle p else memW bufB.handle p) ∧
    (∀ hdl, hdl ≠ bufB.handle →
      ∀ p, (Surface.lock sW memW envW (some ⟨0, 0, 1, 1⟩)).mem hdl p = memW hdl p) :=
  ((lock_copyback_spec sW memW envW (some ⟨0, 0, 1, 1⟩) bufB rfl (Or.inl rfl)
    (by decide) (by decide) rfl).1 bufA rfl).1 (by decide)

/-- C5: for every lock() call that dequeues a buffer successfully and
passes the fence wait, if before the call every dirty region was within
the bounds of the posted buffer (when one exists), then after the call
the accumulated dirty region and every per-slot dirty history are within
the bounds of the dequeued buffer; in particular the dirty region this
frame stores and ORs in is the caller rectangle clipped to those bounds
(or the full bounds). -/
theorem lock_dirty_within_bounds (s : SurfaceState) (mem : Mem) (env : LockEnv)
    (d : Option Rect) (b : GraphicBuffer)
    (hnl : s.lockedBuffer = none)
    (hc : s.connectedToCpu = true ∨ env.connectErr = NO_ERROR)
    (hd : (dequeueCore s.slots env.dequeue env.request).1 = OK)
    (hb : (dequeueCore s.slots env.dequeue env.request).2.1 = some b)
    (hw : env.fenceWaitResult = 0)
    (hpre : ∀ front, s.postedBuffer = some front →
      dirtyBoundedBy s (boundsRegion front)) :
    dirtyBoundedBy (Surface.lock s mem env d).state (boundsRegion b) ∧
    (∃ nd, (Surface.lock s mem env d).newDirtyRegion = some nd ∧
      nd ⊆ boundsRegion b) := by
  obtain ⟨sc, heq, hsl, hpb, hdr, hlb⟩ := lock_reduces s mem env d hnl hc
  rw [← hsl] at hd hb
  rw [heq, lockMain_eq sc mem env d b hd hb hw]
  rcases hpost : sc.postedBuffer with _ | front
  · simp only [hpost]
    exact lockFinish_clear_bounded _ mem env b d
  · simp only [hpost]
    by_cases hdim : b.width = front.width ∧ b.height = front.height ∧
        b.format = front.format
    · rw [if_pos hdim]
      have hfr : s.postedBuffer = some front := by rw [← hpb, hpost]
      obtain ⟨hd1, hd2⟩ := hpre front hfr
      have hbb : boundsRegion front = boundsRegion b := by
        unfold boundsRegion boundsRect
        rw [hdim.1, hdim.2.1]
      refine ⟨⟨?_, ?_⟩, ⟨lockNewDirtyRegion d (boundsRect b),
        lockFinish_newDirtyRegion _ _ _ _ _ _ _,
        lockNewDirtyRegion_subset d (boundsRect b)⟩⟩
      · rw [lockFinish_dirtyRegion]
        apply Finset.union_subset
        · have h3 : (postDequeue sc env).dirtyRegion = s.dirtyRegion := hdr
          rw [h3, ← hbb]
          exact hd1
        · exact lockNewDirtyRegion_subset d (boundsRect b)
      · intro i
        rw [lockFinish_slots_dirtyRegion]
        split
        · exact lockNewDirtyRegion_subset d (boundsRect b)
        · have h3 : ((postDequeue sc env).slots i).dirtyRegion =
              (s.slots i).dirtyRegion := by
            show ((dequeueCore sc.slots env.dequeue env.request).2.2 i).dirtyRegion = _
            rw [dequeueCore_dirtyRegion, hsl]
          rw [h3, ← hbb]
          exact hd2 i
    · rw [if_neg hdim]
      exact lockFinish_clear_bounded _ mem env b d

/-- C5 witness: the successful lock on the populated surface keeps every
dirty region within the 2x2 bounds of the dequeued bufB. -/
theorem lock_dirty_within_bounds_witness :
    dirtyBoundedBy (Surface.lock sW memW envW none).state (boundsRegion bufB) ∧
    (∃ nd, (Surface.lock sW memW envW none).newDirtyRegion = some nd ∧
      nd ⊆ boundsRegion bufB) :=
  lock_dirty_within_bounds sW memW envW none bufB rfl (Or.inl rfl)
    (by decide) (by decide) rfl
    (fun front h => by
      have hfa : front = bufA := (Option.some.inj h).symm
      subst hfa
      exact ⟨by decide, by decide⟩)

/-- C4: the drawing state is mutated only by commitTransaction, which
replaces it wholesale by the current state: along any operation sequence
the observed drawing state is either the initial drawing state or the
full current-state snapshot at some committed prefix (never a partial
mix), and no operation other than commitTransaction ever changes the
drawing state. -/
theorem commitTransaction_atomic (ops : List FlingerOp) (s : FlingerState) :
    ((flingerRun ops s).mDrawingState = s.mDrawingState ∨
      ∃ pre, pre <+: ops ∧
        (flingerRun ops s).mDrawingState = (flingerRun pre s).mCurrentState) ∧
    (∀ (op : FlingerOp) (t : FlingerState), op ≠ FlingerOp.commitTransaction →
      (FlingerOp.step op t).mDrawingState = t.mDrawingState) := by
  constructor
  · induction ops generalizing s with
    | nil => exact Or.inl rfl
    | cons op rest ih =>
      rcases ih (op.step s) with h | ⟨pre, hpre, hval⟩
      · cases op with
        | setTransactionState f flags => exact Or.inl (h.trans rfl)
        | commitTransaction =>
          refine Or.inr ⟨[FlingerOp.commitTransaction], ⟨rest, rfl⟩, ?_⟩
          exact h.trans rfl
        | handleRepaint => exact Or.inl (h.trans rfl)
      · exact Or.inr ⟨op :: pre, ⟨hpre.choose, by rw [List.cons_append, hpre.choose_spec]⟩,
          hval⟩
  · intro op t hop
    cases op with
    | setTransactionState f flags => rfl
    | commitTransaction => exact absurd rfl hop
    | handleRepaint => rfl

/-- C4 witness: after one transaction and one commit from the empty
compositor state, the drawing state is the committed snapshot of the
current state at some prefix, and non-commit operations never change the
drawing state. -/
theorem commitTransaction_atomic_witness :
    ((flingerRun flingerOpsW flingerInitW).mDrawingState =
        flingerInitW.mDrawingState ∨
      ∃ pre, pre <+: flingerOpsW ∧
        (flingerRun flingerOpsW flingerInitW).mDrawingState =
          (flingerRun pre flingerInitW).mCurrentState) ∧
    (∀ (op : FlingerOp) (t : FlingerState), op ≠ FlingerOp.commitTransaction →
      (FlingerOp.step op t).mDrawingState = t.mDrawingState) :=
  commitTransaction_atomic flingerOpsW flingerInitW

end AndroidGui
